import Mathlib

/-!
Verification development for the payment-agent core of the repository:
the Distributor (`distributePayment` in
`src/agents/payment-agent/src/tools/distributionLogic.ts`) and the
Listener polling loop (`pollForMintAndDistribute` in
`src/agents/payment-agent/src/tools/createPaymentTransaction.ts`).

Modelling conventions:
- JS `bigint` values are `Int`; JS `bigint` division truncates toward
  zero, which is `Int.tdiv`.
- JS `number` values (the `splitPercentage` parameter and the
  display-amount arithmetic of the immediate response) are modelled as
  exact rationals `ℚ`; every concrete value appearing in the claims is
  exactly representable as a binary double, and the one rounding step
  the claims depend on (`toFixed(2)`) is modelled explicitly.
- The chain is an explicit environment: the read interface supplies
  the gas balance and, per polling step, the outcome of the log scan;
  the write interface supplies the outcome of each submission and
  confirmation wait.  Every external call the code makes is recorded
  in an event log, so ordering claims are about that log.
- A thrown JS exception is an `Except.error`; the `try`/`catch` of
  `distributePayment` is the translation of each error outcome into a
  structured `{success := false, error := ...}` result, and the
  `try`/`catch` inside `checkForMint` is the translation of an errored
  scan into a continue-polling step.
-/

namespace PaymentAgent

/-- The two distribution destinations: the Scope agent (party A) and the
Coder agent (party B). -/
inductive Party where
  | scope
  | coder
deriving DecidableEq, Repr

/-- Result record of `distributePayment` (interface `DistributionResult`
in `distributionLogic.ts`). Transaction hashes and block numbers are
abstracted as numbers. -/
structure DistributionResult where
  success : Bool
  scopeTx : Option Nat := none
  coderTx : Option Nat := none
  scopeBlockNumber : Option Nat := none
  coderBlockNumber : Option Nat := none
  error : Option String := none
deriving DecidableEq, Repr

/-- One call made by `distributePayment` against the chain interfaces:
the gas-balance read, a transfer submission (`sendTransaction`) with its
recipient party and amount, or a confirmation wait
(`waitForTransactionReceipt`) on a transaction id. -/
inductive CallEvent where
  | getBalance
  | submit (recipient : Party) (amount : Int)
  | waitForConfirmation (tx : Nat)
deriving DecidableEq, Repr

/-- The chain environment a single Distributor invocation runs against:
the ETH balance returned for the operating account, and the outcome
(`ok` value or thrown error message) of each of the four chain calls
the code can make, in program order. -/
structure ChainEnv where
  ethBalance : Nat
  scopeSend : Except String Nat
  scopeWait : Except String Nat
  coderSend : Except String Nat
  coderWait : Except String Nat

/-- Error message of the no-gas fast-fail branch of `distributePayment`. -/
def noGasError : String := "No ETH for gas fees"

/-- JS `BigInt(x)` on a `number` x: yields the integer when `x` is an
integer and throws a `RangeError` otherwise. -/
def jsBigInt (x : ℚ) : Except String Int :=
  if x.den = 1 then Except.ok x.num
  else Except.error "Cannot convert a non-integer number to a BigInt"

/-- The party A share computed by `distributePayment`:
`(amount * BigInt(splitPercentage)) / 100n` with JS `bigint` division,
which truncates toward zero (`Int.tdiv`). -/
def scopeAmountOf (amount : Int) (sp : Int) : Int :=
  Int.tdiv (amount * sp) 100

/-- Shallow embedding of `distributePayment` from `distributionLogic.ts`.
Returns the `DistributionResult` together with the log of chain calls
made, in order.  The structure mirrors the source: read the gas balance
and fail fast when it is zero; convert `splitPercentage` with `BigInt`
(which can throw); compute `scopeAmount` by truncating division and
`coderAmount` by subtraction; submit the Scope transfer; wait for its
confirmation; submit the Coder transfer; wait for its confirmation; any
thrown error is converted by the outer catch into
`{success := false, error := message}` with no further calls. -/
def distributePayment (env : ChainEnv) (amount : Int) (splitPercentage : ℚ) :
    DistributionResult × List CallEvent :=
  if env.ethBalance = 0 then
    ({ success := false, error := some noGasError }, [CallEvent.getBalance])
  else
    match jsBigInt splitPercentage with
    | Except.error e => ({ success := false, error := some e }, [CallEvent.getBalance])
    | Except.ok sp =>
      let scopeAmount := scopeAmountOf amount sp
      let coderAmount := amount - scopeAmount
      match env.scopeSend with
      | Except.error e =>
          ({ success := false, error := some e },
           [CallEvent.getBalance, CallEvent.submit Party.scope scopeAmount])
      | Except.ok scopeTx =>
        match env.scopeWait with
        | Except.error e =>
            ({ success := false, error := some e },
             [CallEvent.getBalance, CallEvent.submit Party.scope scopeAmount,
              CallEvent.waitForConfirmation scopeTx])
        | Except.ok scopeBlock =>
          match env.coderSend with
          | Except.error e =>
              ({ success := false, error := some e },
               [CallEvent.getBalance, CallEvent.submit Party.scope scopeAmount,
                CallEvent.waitForConfirmation scopeTx,
                CallEvent.submit Party.coder coderAmount])
          | Except.ok coderTx =>
            match env.coderWait with
            | Except.error e =>
                ({ success := false, error := some e },
                 [CallEvent.getBalance, CallEvent.submit Party.scope scopeAmount,
                  CallEvent.waitForConfirmation scopeTx,
                  CallEvent.submit Party.coder coderAmount,
                  CallEvent.waitForConfirmation coderTx])
            | Except.ok coderBlock =>
                ({ success := true, scopeTx := some scopeTx, coderTx := some coderTx,
                   scopeBlockNumber := some scopeBlock,
                   coderBlockNumber := some coderBlock, error := none },
                 [CallEvent.getBalance, CallEvent.submit Party.scope scopeAmount,
                  CallEvent.waitForConfirmation scopeTx,
                  CallEvent.submit Party.coder coderAmount,
                  CallEvent.waitForConfirmation coderTx])

/-- The submissions contained in a chain-call log, in order. -/
def submitEvents (log : List CallEvent) : List CallEvent :=
  log.filter fun e => match e with
    | CallEvent.submit _ _ => true
    | _ => false

/-! The Listener: `pollForMintAndDistribute` of
`createPaymentTransaction.ts`. -/

/-- A `MintAndWithdraw` event as returned by the filtered `getLogs`
query (the query itself already filters on `mintRecipient` and
`mintToken`, so only the fields the loop inspects are kept). -/
structure MintLog where
  amount : Int
  blockNumber : Nat
  txHash : Nat
deriving DecidableEq, Repr

/-- The environment-supplied data of one polling step: the value of
`Date.now()` at its start, and the outcome of the chain read
(`getBlockNumber` + `getLogs`) the step would perform — either the
returned log list or a thrown error. -/
structure PollStep where
  now : Nat
  scan : Except String (List MintLog)

/-- The polling timeout of `pollForMintAndDistribute`:
`2.5 * 60 * 1000` milliseconds. -/
def timeoutMs : Nat := 150000

/-- The delay between polling steps: 1000 milliseconds. -/
def pollIntervalMs : Nat := 1000

/-- Error message passed to the completion callback on timeout. -/
def timeoutError : String := "Timeout waiting for payment"

/-- Observable actions of the Listener: an invocation of the
Distributor (recording the arguments passed to `distributePayment`
and the matched event that triggered it), and an invocation of the
completion callback `onComplete`. -/
inductive ListenerEvent where
  | distributeCall (amount : Int) (splitPercentage : ℚ) (matched : MintLog)
  | complete (success : Bool) (error : Option String)
deriving DecidableEq, Repr

/-- The match scan of a polling step:
`logs.find(log => log.args.amount === expectedAmount)` — the first
event in the returned list whose amount equals the expected amount. -/
def findMatch (expected : Int) (logs : List MintLog) : Option MintLog :=
  logs.find? fun l => l.amount == expected

/-- Shallow embedding of the `checkForMint` polling loop of
`pollForMintAndDistribute`, run over an environment-supplied sequence
of polling steps (the list models the finite portion of the run under
observation; an empty list means the run is cut off there with no
further observed behaviour).  Each step mirrors the source order:
first the timeout check on `Date.now() - startTime > timeout` (ending
the loop with the timeout callback), then the chain scan — a thrown
scan error is caught and polling continues with the next scheduled
step — then the first-match lookup; on a match the Distributor runs
and the callback receives `(true)` or `(false, result.error)`; on no
match the next step is scheduled.  The returned trace lists the
Distributor invocations and callback invocations, in order. -/
def runPoll (env : ChainEnv) (expected : Int) (splitPercentage : ℚ)
    (startTime : Nat) : List PollStep → List ListenerEvent
  | [] => []
  | s :: rest =>
    if s.now - startTime > timeoutMs then
      [ListenerEvent.complete false (some timeoutError)]
    else
      match s.scan with
      | Except.error _ => runPoll env expected splitPercentage startTime rest
      | Except.ok logs =>
        match findMatch expected logs with
        | some m =>
          let result := (distributePayment env expected splitPercentage).1
          if result.success then
            [ListenerEvent.distributeCall expected splitPercentage m,
             ListenerEvent.complete true none]
          else
            [ListenerEvent.distributeCall expected splitPercentage m,
             ListenerEvent.complete false result.error]
        | none => runPoll env expected splitPercentage startTime rest

/-- Number of Distributor invocations recorded in a Listener trace. -/
def distributeCount (tr : List ListenerEvent) : Nat :=
  (tr.filter fun e => match e with
    | ListenerEvent.distributeCall _ _ _ => true
    | _ => false).length

/-- Number of completion-callback invocations recorded in a trace. -/
def completeCount (tr : List ListenerEvent) : Nat :=
  (tr.filter fun e => match e with
    | ListenerEvent.complete _ _ => true
    | _ => false).length

/-- A step is quiet when running it cannot take the match branch: its
scan either throws or returns a list with no event of the expected
amount. -/
def PollStep.quiet (expected : Int) (s : PollStep) : Bool :=
  match s.scan with
  | Except.error _ => true
  | Except.ok logs => (findMatch expected logs).isNone

/-- A step starts after the timeout window has elapsed. -/
def PollStep.late (startTime : Nat) (s : PollStep) : Bool :=
  s.now - startTime > timeoutMs

/-- The two-event trace produced by the match branch of the polling
loop: the Distributor invocation followed by the completion callback
carrying the Distributor outcome — `(true)` on success and
`(false, result.error)` on failure, exactly as `checkForMint` passes
them to `onComplete`. -/
def matchTrace (env : ChainEnv) (expected : Int) (splitPercentage : ℚ)
    (m : MintLog) : List ListenerEvent :=
  let result := (distributePayment env expected splitPercentage).1
  if result.success then
    [ListenerEvent.distributeCall expected splitPercentage m,
     ListenerEvent.complete true none]
  else
    [ListenerEvent.distributeCall expected splitPercentage m,
     ListenerEvent.complete false result.error]

/-! The immediate response of `createPaymentTransactionTool`: the
per-party display amounts. -/

/-- Library function `parseUnits(amount, 6)`: the smallest-unit integer
denoted by a decimal string, modelled on the exact rational value of
the string; amounts with more than 6 decimal places are not modelled
(the claims only use amounts with at most 6 decimals). -/
def parseUnits6 (q : ℚ) : Except String Int :=
  if (q * 1000000).den = 1 then Except.ok (q * 1000000).num
  else Except.error "fractional component exceeds decimals"

/-- JS `x.toFixed(2)` as a numeric value: x rounded to two decimal
places, to the nearest multiple of 1/100 with ties toward the larger
value, which is `round` in Mathlib.  The binary-double representation
step of JS numbers is not modelled; the arithmetic here is exact. -/
def toFixed2 (q : ℚ) : ℚ :=
  (round (q * 100) : ℚ) / 100

/-- The Scope-agent display amount in the immediate response of
`createPaymentTransactionTool`:
`(parseFloat(args.amount) * args.splitPercentage / 100).toFixed(2)`,
with the float arithmetic modelled exactly over ℚ. -/
def scopeDisplayAmount (amount splitPercentage : ℚ) : ℚ :=
  toFixed2 (amount * splitPercentage / 100)

/-- The Coder-agent display amount in the immediate response:
`(parseFloat(args.amount) * (100 - args.splitPercentage) / 100).toFixed(2)`. -/
def coderDisplayAmount (amount splitPercentage : ℚ) : ℚ :=
  toFixed2 (amount * (100 - splitPercentage) / 100)

/-- The input schema bound on `splitPercentage`:
`z.number().min(0).max(100)` — any number in [0, 100], integral or
not. -/
def schemaAllowsSplit (splitPercentage : ℚ) : Prop :=
  0 ≤ splitPercentage ∧ splitPercentage ≤ 100

instance (sp : ℚ) : Decidable (schemaAllowsSplit sp) := by
  unfold schemaAllowsSplit; infer_instance

/-! Concrete environments and steps used by witnesses. -/

/-- A chain environment in which every call succeeds. -/
def envOk : ChainEnv :=
  ⟨1, Except.ok 11, Except.ok 101, Except.ok 12, Except.ok 102⟩

/-- A chain environment whose gas-balance read returns 0. -/
def envNoGas : ChainEnv :=
  ⟨0, Except.ok 11, Except.ok 101, Except.ok 12, Except.ok 102⟩

/-- A chain environment in which the Coder-transfer submission throws
after the Scope transfer has confirmed. -/
def envCoderSendFails : ChainEnv :=
  ⟨1, Except.ok 11, Except.ok 101, Except.error "insufficient funds", Except.ok 102⟩

/-- A chain environment in which the Coder-transfer confirmation wait
throws after the Coder transfer was submitted. -/
def envCoderWaitFails : ChainEnv :=
  ⟨1, Except.ok 11, Except.ok 101, Except.ok 12, Except.error "receipt not found"⟩

/-- A mint event of amount 5 at block 1. -/
def mint5 : MintLog := ⟨5, 1, 21⟩

/-- A mint event of amount 4 at block 1. -/
def mint4 : MintLog := ⟨4, 1, 22⟩

/-! Basic unfolding lemmas for the polling loop. -/

/-- A polling step that begins after the timeout window ends the loop
with the timeout callback, whatever its scan would have returned. -/
lemma runPoll_cons_late (env : ChainEnv) (e : Int) (sp : ℚ) (st : Nat)
    (s : PollStep) (rest : List PollStep) (h : s.late st = true) :
    runPoll env e sp st (s :: rest) =
      [ListenerEvent.complete false (some timeoutError)] := by
  have hp : s.now - st > timeoutMs := by simpa [PollStep.late] using h
  simp [runPoll, hp]

/-- A polling step within the window whose scan throws or finds no
match consumes the step and continues with the remaining steps. -/
lemma runPoll_cons_quiet (env : ChainEnv) (e : Int) (sp : ℚ) (st : Nat)
    (s : PollStep) (rest : List PollStep)
    (hl : s.late st = false) (hq : s.quiet e = true) :
    runPoll env e sp st (s :: rest) = runPoll env e sp st rest := by
  have hp : ¬ (s.now - st > timeoutMs) := by simpa [PollStep.late] using hl
  rcases hsc : s.scan with msg | logs
  · simp [runPoll, hp, hsc]
  · have hnone : findMatch e logs = none := by
      have hq2 := hq
      simp [PollStep.quiet, hsc, Option.isNone_iff_eq_none] at hq2
      exact hq2
    simp [runPoll, hp, hsc, hnone]

/-- A run whose leading steps are all within the window and quiet
behaves like the run over the remaining steps. -/
lemma runPoll_quiet_append (env : ChainEnv) (e : Int) (sp : ℚ) (st : Nat)
    (pre rest : List PollStep)
    (h : ∀ x ∈ pre, x.late st = false ∧ x.quiet e = true) :
    runPoll env e sp st (pre ++ rest) = runPoll env e sp st rest := by
  induction pre with
  | nil => rfl
  | cons x xs ih =>
    have hx := h x (by simp)
    rw [List.cons_append, runPoll_cons_quiet env e sp st x (xs ++ rest) hx.1 hx.2,
      ih (fun y hy => h y (by simp [hy]))]

/-- A polling step within the window whose scan returns a matching
event runs the match branch: the Distributor call and the completion
callback, and nothing from the remaining steps. -/
lemma runPoll_cons_match (env : ChainEnv) (e : Int) (sp : ℚ) (st : Nat)
    (s : PollStep) (rest : List PollStep) (logs : List MintLog) (m : MintLog)
    (hl : s.late st = false) (hsc : s.scan = Except.ok logs)
    (hm : findMatch e logs = some m) :
    runPoll env e sp st (s :: rest) = matchTrace env e sp m := by
  have hp : ¬ (s.now - st > timeoutMs) := by simpa [PollStep.late] using hl
  simp [runPoll, hp, hsc, hm, matchTrace]

/-- C1: for every amount at least 0 and every integer splitPercentage
in [0, 100], the Distributor computes the party A share as
floor(amount * splitPercentage / 100) and the party B share as
amount minus the party A share, so the two shares sum to the amount
exactly; splitPercentage 0 gives party A nothing and splitPercentage
100 gives party A everything. -/
theorem c1_split_invariant (amount sp : Int)
    (h0 : 0 ≤ amount) (h1 : 0 ≤ sp) (h2 : sp ≤ 100) :
    scopeAmountOf amount sp + (amount - scopeAmountOf amount sp) = amount
    ∧ scopeAmountOf amount sp = ⌊((amount : ℚ) * (sp : ℚ)) / 100⌋
    ∧ scopeAmountOf amount 0 = 0
    ∧ scopeAmountOf amount 100 = amount := by
  refine ⟨by ring, ?_, ?_, ?_⟩
  · have hnn : 0 ≤ amount * sp := mul_nonneg h0 h1
    have hdiv : Int.tdiv (amount * sp) 100 = (amount * sp) / 100 :=
      Int.tdiv_eq_ediv hnn (by norm_num)
    have hfloor : ⌊((amount * sp : ℤ) : ℚ) / ((100 : ℕ) : ℚ)⌋ =
        (amount * sp) / ((100 : ℕ) : ℤ) :=
      Rat.floor_intCast_div_natCast (amount * sp) 100
    rw [scopeAmountOf, hdiv]
    rw [show ((amount : ℚ) * (sp : ℚ)) = ((amount * sp : ℤ) : ℚ) by push_cast; ring]
    rw [show (100 : ℚ) = ((100 : ℕ) : ℚ) by norm_num]
    rw [hfloor]
    norm_num
  · simp [scopeAmountOf]
  · have hdiv : Int.tdiv (amount * 100) 100 = (amount * 100) / 100 :=
      Int.tdiv_eq_ediv (mul_nonneg h0 (by norm_num)) (by norm_num)
    rw [scopeAmountOf, hdiv, Int.mul_ediv_cancel _ (by norm_num)]

/-- Witness for C1 at the rounding example of the spec: amount 7 and
splitPercentage 33 give shares 2 and 5. -/
theorem c1_split_invariant_witness :
    scopeAmountOf 7 33 + (7 - scopeAmountOf 7 33) = 7
    ∧ scopeAmountOf 7 33 = ⌊(((7 : ℤ) : ℚ) * ((33 : ℤ) : ℚ)) / 100⌋
    ∧ scopeAmountOf 7 0 = 0
    ∧ scopeAmountOf 7 100 = 7 :=
  c1_split_invariant 7 33 (by norm_num) (by norm_num) (by norm_num)

/-- C5: when the gas-balance read returns 0, the Distributor returns a
failure result carrying the no-gas error and makes no submission call
at all. -/
theorem c5_no_gas_short_circuit (env : ChainEnv) (amount : Int) (sp : ℚ)
    (h : env.ethBalance = 0) :
    (distributePayment env amount sp).1 =
      { success := false, error := some noGasError }
    ∧ submitEvents (distributePayment env amount sp).2 = []
    ∧ ∀ p a, CallEvent.submit p a ∉ (distributePayment env amount sp).2 := by
  refine ⟨?_, ?_, ?_⟩ <;> simp [distributePayment, h, submitEvents]

/-- Witness for C5: a concrete zero-balance environment. -/
theorem c5_no_gas_short_circuit_witness :
    (distributePayment envNoGas 5 60).1 =
      { success := false, error := some noGasError }
    ∧ submitEvents (distributePayment envNoGas 5 60).2 = []
    ∧ ∀ p a, CallEvent.submit p a ∉ (distributePayment envNoGas 5 60).2 :=
  c5_no_gas_short_circuit envNoGas 5 60 (by decide)

/-- C3: in every Distributor invocation the chain-call log is a prefix
of the canonical sequence balance-read, submit to party A, wait for
the party A confirmation, submit to party B, wait for the party B
confirmation: party B is never submitted before the party A
confirmation has been observed, and there is no overlap or
reordering. -/
theorem c3_sequential_confirmation (env : ChainEnv) (amount : Int) (sp : ℚ) :
    ∃ aA aB tA tB,
      (distributePayment env amount sp).2 = [CallEvent.getBalance]
      ∨ (distributePayment env amount sp).2 =
          [CallEvent.getBalance, CallEvent.submit Party.scope aA]
      ∨ (distributePayment env amount sp).2 =
          [CallEvent.getBalance, CallEvent.submit Party.scope aA,
           CallEvent.waitForConfirmation tA]
      ∨ (distributePayment env amount sp).2 =
          [CallEvent.getBalance, CallEvent.submit Party.scope aA,
           CallEvent.waitForConfirmation tA, CallEvent.submit Party.coder aB]
      ∨ (distributePayment env amount sp).2 =
          [CallEvent.getBalance, CallEvent.submit Party.scope aA,
           CallEvent.waitForConfirmation tA, CallEvent.submit Party.coder aB,
           CallEvent.waitForConfirmation tB] := by
  rcases env with ⟨b, ss, sw, cs, cw⟩
  by_cases hb : b = 0
  · exact ⟨0, 0, 0, 0, Or.inl (by simp [distributePayment, hb])⟩
  · rcases hj : jsBigInt sp with e | spi
    · exact ⟨0, 0, 0, 0, Or.inl (by simp [distributePayment, hb, hj])⟩
    · rcases ss with esA | xA
      · exact ⟨scopeAmountOf amount spi, 0, 0, 0,
          Or.inr (Or.inl (by simp [distributePayment, hb, hj]))⟩
      · rcases sw with ewA | bA
        · exact ⟨scopeAmountOf amount spi, 0, xA, 0,
            Or.inr (Or.inr (Or.inl (by simp [distributePayment, hb, hj])))⟩
        · rcases cs with esB | xB
          · exact ⟨scopeAmountOf amount spi, amount - scopeAmountOf amount spi, xA, 0,
              Or.inr (Or.inr (Or.inr (Or.inl (by simp [distributePayment, hb, hj]))))⟩
          · rcases cw with ewB | bB
            · exact ⟨scopeAmountOf amount spi, amount - scopeAmountOf amount spi, xA, xB,
                Or.inr (Or.inr (Or.inr (Or.inr (by simp [distributePayment, hb, hj]))))⟩
            · exact ⟨scopeAmountOf amount spi, amount - scopeAmountOf amount spi, xA, xB,
                Or.inr (Or.inr (Or.inr (Or.inr (by simp [distributePayment, hb, hj]))))⟩

/-- C7: when the party A transfer submits and confirms and the party B
transfer then fails at submission or confirmation, the result reports
failure with an error, the confirmation of the party A transaction id
was observed, and exactly the two transfers were submitted — no
compensating or retry transaction follows. -/
theorem c7_partial_failure_no_rollback (env : ChainEnv) (amount : Int) (sp : ℚ)
    (spi : Int) (xA : Nat) (bA : Nat)
    (hb : env.ethBalance ≠ 0) (hj : jsBigInt sp = Except.ok spi)
    (hA : env.scopeSend = Except.ok xA) (hAw : env.scopeWait = Except.ok bA)
    (hB : (∃ e, env.coderSend = Except.error e)
        ∨ (∃ xB e, env.coderSend = Except.ok xB ∧ env.coderWait = Except.error e)) :
    (distributePayment env amount sp).1.success = false
    ∧ (∃ e, (distributePayment env amount sp).1.error = some e)
    ∧ CallEvent.waitForConfirmation xA ∈ (distributePayment env amount sp).2
    ∧ submitEvents (distributePayment env amount sp).2 =
        [CallEvent.submit Party.scope (scopeAmountOf amount spi),
         CallEvent.submit Party.coder (amount - scopeAmountOf amount spi)] := by
  rcases hB with ⟨e, hcs⟩ | ⟨xB, e, hcs, hcw⟩
  · refine ⟨?_, ⟨e, ?_⟩, ?_, ?_⟩ <;>
      simp [distributePayment, hb, hj, hA, hAw, hcs, submitEvents]
  · refine ⟨?_, ⟨e, ?_⟩, ?_, ?_⟩ <;>
      simp [distributePayment, hb, hj, hA, hAw, hcs, hcw, submitEvents]

/-- Witness for C7: the party B submission throws after the party A
transfer confirmed. -/
theorem c7_partial_failure_no_rollback_witness :
    (distributePayment envCoderSendFails 10 60).1.success = false
    ∧ (∃ e, (distributePayment envCoderSendFails 10 60).1.error = some e)
    ∧ CallEvent.waitForConfirmation 11 ∈ (distributePayment envCoderSendFails 10 60).2
    ∧ submitEvents (distributePayment envCoderSendFails 10 60).2 =
        [CallEvent.submit Party.scope (scopeAmountOf 10 60),
         CallEvent.submit Party.coder (10 - scopeAmountOf 10 60)] :=
  c7_partial_failure_no_rollback envCoderSendFails 10 60 60 11 101
    (by decide) (by rfl) (by rfl) (by rfl)
    (Or.inl ⟨"insufficient funds", by rfl⟩)

/-- C10: a splitPercentage in [0, 100] that is not an integer passes
the input schema, yet the Distributor submits no transfer and returns
a failure result with an error message: the BigInt conversion throws
inside the guarded block before any transaction is sent and the outer
catch converts the throw into a structured failure. -/
theorem c10_fractional_split_guard (env : ChainEnv) (amount : Int) (sp : ℚ)
    (hs : schemaAllowsSplit sp) (hden : sp.den ≠ 1) :
    (distributePayment env amount sp).1.success = false
    ∧ (∃ e, (distributePayment env amount sp).1.error = some e)
    ∧ submitEvents (distributePayment env amount sp).2 = [] := by
  have hj : jsBigInt sp =
      Except.error "Cannot convert a non-integer number to a BigInt" := by
    simp [jsBigInt, hden]
  by_cases hb : env.ethBalance = 0
  · refine ⟨?_, ⟨noGasError, ?_⟩, ?_⟩ <;> simp [distributePayment, hb, submitEvents]
  · refine ⟨?_, ⟨"Cannot convert a non-integer number to a BigInt", ?_⟩, ?_⟩ <;>
      simp [distributePayment, hb, hj, submitEvents]

/-- Witness for C10 at splitPercentage 33.5 in a fully functional
environment. -/
theorem c10_fractional_split_guard_witness :
    (distributePayment envOk 10 (67 / 2)).1.success = false
    ∧ (∃ e, (distributePayment envOk 10 (67 / 2)).1.error = some e)
    ∧ submitEvents (distributePayment envOk 10 (67 / 2)).2 = [] :=
  c10_fractional_split_guard envOk 10 (67 / 2) (by norm_num [schemaAllowsSplit])
    (by norm_num)

/-- C2: in a run whose earlier steps are within the window and find no
match and whose next step scans a list containing a qualifying event,
the whole trace is the match-branch trace: the Distributor is invoked
exactly once, on the first matching event of the scan in its natural
return order (`List.find?`), the callback fires exactly once with the
Distributor outcome, and the trace does not depend on the steps after
the match — no further step is scheduled. -/
theorem c2_exactly_once_distribution (env : ChainEnv) (e : Int) (sp : ℚ)
    (st : Nat) (pre post : List PollStep) (s : PollStep)
    (logs : List MintLog) (m : MintLog)
    (hpre : ∀ x ∈ pre, x.late st = false ∧ x.quiet e = true)
    (hl : s.late st = false) (hsc : s.scan = Except.ok logs)
    (hm : findMatch e logs = some m) :
    runPoll env e sp st (pre ++ s :: post) = matchTrace env e sp m
    ∧ distributeCount (runPoll env e sp st (pre ++ s :: post)) = 1
    ∧ completeCount (runPoll env e sp st (pre ++ s :: post)) = 1 := by
  have h1 : runPoll env e sp st (pre ++ s :: post) = matchTrace env e sp m := by
    rw [runPoll_quiet_append env e sp st pre (s :: post) hpre,
      runPoll_cons_match env e sp st s post logs m hl hsc hm]
  refine ⟨h1, ?_, ?_⟩ <;> rw [h1] <;> simp only [matchTrace] <;>
    cases hsucc : (distributePayment env e sp).1.success <;>
      simp [distributeCount, completeCount, hsucc]

/-- Witness for C2: two quiet steps (one errored scan, one empty scan)
followed by a scan returning a non-matching and a matching event, with
one further step that is never taken. -/
theorem c2_exactly_once_distribution_witness :
    runPoll envOk 5 60 0
        [⟨1000, Except.error "rpc down"⟩, ⟨2000, Except.ok []⟩,
         ⟨3000, Except.ok [mint4, mint5]⟩, ⟨4000, Except.ok [mint5]⟩] =
      matchTrace envOk 5 60 mint5
    ∧ distributeCount (runPoll envOk 5 60 0
        [⟨1000, Except.error "rpc down"⟩, ⟨2000, Except.ok []⟩,
         ⟨3000, Except.ok [mint4, mint5]⟩, ⟨4000, Except.ok [mint5]⟩]) = 1
    ∧ completeCount (runPoll envOk 5 60 0
        [⟨1000, Except.error "rpc down"⟩, ⟨2000, Except.ok []⟩,
         ⟨3000, Except.ok [mint4, mint5]⟩, ⟨4000, Except.ok [mint5]⟩]) = 1 :=
  c2_exactly_once_distribution envOk 5 60 0
    [⟨1000, Except.error "rpc down"⟩, ⟨2000, Except.ok []⟩]
    [⟨4000, Except.ok [mint5]⟩] ⟨3000, Except.ok [mint4, mint5]⟩
    [mint4, mint5] mint5 (by decide) (by decide) rfl (by decide)

/-- C4: when every step before some step s is within the window and
finds no match and s begins after the window, the completion callback
fires exactly once, with failure and the timeout error — an error
distinct from the no-gas precondition error — no Distributor call
occurs, nothing is reported during the in-window steps, the elapsed
time at the reporting step exceeds the window, and the window is the
2.5 minutes of the code. -/
theorem c4_timeout_termination (env : ChainEnv) (e : Int) (sp : ℚ)
    (st : Nat) (pre post : List PollStep) (s : PollStep)
    (hpre : ∀ x ∈ pre, x.late st = false ∧ x.quiet e = true)
    (hs : s.late st = true) :
    runPoll env e sp st (pre ++ s :: post) =
      [ListenerEvent.complete false (some timeoutError)]
    ∧ completeCount (runPoll env e sp st (pre ++ s :: post)) = 1
    ∧ distributeCount (runPoll env e sp st (pre ++ s :: post)) = 0
    ∧ runPoll env e sp st pre = []
    ∧ s.now - st > timeoutMs
    ∧ timeoutMs = 150000
    ∧ timeoutError ≠ noGasError := by
  have h1 : runPoll env e sp st (pre ++ s :: post) =
      [ListenerEvent.complete false (some timeoutError)] := by
    rw [runPoll_quiet_append env e sp st pre (s :: post) hpre,
      runPoll_cons_late env e sp st s post hs]
  have h2 : runPoll env e sp st pre = [] := by
    have h := runPoll_quiet_append env e sp st pre [] hpre
    rw [List.append_nil] at h
    simpa [runPoll] using h
  refine ⟨h1, ?_, ?_, h2, ?_, rfl, by decide⟩
  · rw [h1]; simp [completeCount]
  · rw [h1]; simp [distributeCount]
  · simpa [PollStep.late] using hs

/-- Witness for C4: one quiet in-window step, then a step past the
2.5-minute window; no matching event ever appears. -/
theorem c4_timeout_termination_witness :
    runPoll envOk 5 60 0 [⟨1000, Except.ok []⟩, ⟨151000, Except.ok []⟩] =
      [ListenerEvent.complete false (some timeoutError)]
    ∧ completeCount (runPoll envOk 5 60 0
        [⟨1000, Except.ok []⟩, ⟨151000, Except.ok []⟩]) = 1
    ∧ distributeCount (runPoll envOk 5 60 0
        [⟨1000, Except.ok []⟩, ⟨151000, Except.ok []⟩]) = 0
    ∧ runPoll envOk 5 60 0 [⟨1000, Except.ok []⟩] = []
    ∧ (151000 : Nat) - 0 > timeoutMs
    ∧ timeoutMs = 150000
    ∧ timeoutError ≠ noGasError :=
  c4_timeout_termination envOk 5 60 0 [⟨1000, Except.ok []⟩] []
    ⟨151000, Except.ok []⟩ (by decide) (by decide)

/-- C8: an error thrown inside an in-window polling step is absorbed:
the loop continues with the remaining steps exactly as it would after
a no-match scan — no exception event appears in the trace — and the
elapsed-time budget keeps running, so a later step past the window
still triggers the timeout. -/
theorem c8_step_errors_nonfatal (env : ChainEnv) (e : Int) (sp : ℚ)
    (st : Nat) (rest : List PollStep) (t : Nat) (msg : String)
    (hl : PollStep.late st ⟨t, Except.error msg⟩ = false) :
    runPoll env e sp st (⟨t, Except.error msg⟩ :: rest) =
      runPoll env e sp st rest
    ∧ runPoll env e sp st (⟨t, Except.error msg⟩ :: rest) =
        runPoll env e sp st (⟨t, Except.ok []⟩ :: rest)
    ∧ ∀ (s2 : PollStep) (rest2 : List PollStep), s2.late st = true →
        runPoll env e sp st (⟨t, Except.error msg⟩ :: s2 :: rest2) =
          [ListenerEvent.complete false (some timeoutError)] := by
  have hq : PollStep.quiet e ⟨t, Except.error msg⟩ = true := by
    simp [PollStep.quiet]
  have hq2 : PollStep.quiet e ⟨t, Except.ok []⟩ = true := by
    simp [PollStep.quiet, findMatch]
  have hl2 : PollStep.late st ⟨t, Except.ok []⟩ = false := by
    simpa [PollStep.late] using hl
  refine ⟨runPoll_cons_quiet env e sp st _ rest hl hq, ?_, ?_⟩
  · rw [runPoll_cons_quiet env e sp st _ rest hl hq,
      runPoll_cons_quiet env e sp st _ rest hl2 hq2]
  · intro s2 rest2 hs2
    rw [runPoll_cons_quiet env e sp st _ (s2 :: rest2) hl hq,
      runPoll_cons_late env e sp st s2 rest2 hs2]

/-- Witness for C8: a failed scan at second 1, followed by a step past
the window. -/
theorem c8_step_errors_nonfatal_witness :
    runPoll envOk 5 60 0 [⟨1000, Except.error "rpc down"⟩, ⟨2000, Except.ok [mint5]⟩] =
      runPoll envOk 5 60 0 [⟨2000, Except.ok [mint5]⟩]
    ∧ runPoll envOk 5 60 0 [⟨1000, Except.error "rpc down"⟩, ⟨2000, Except.ok [mint5]⟩] =
        runPoll envOk 5 60 0 [⟨1000, Except.ok []⟩, ⟨2000, Except.ok [mint5]⟩]
    ∧ ∀ (s2 : PollStep) (rest2 : List PollStep), s2.late 0 = true →
        runPoll envOk 5 60 0 (⟨1000, Except.error "rpc down"⟩ :: s2 :: rest2) =
          [ListenerEvent.complete false (some timeoutError)] :=
  c8_step_errors_nonfatal envOk 5 60 0 [⟨2000, Except.ok [mint5]⟩] 1000
    "rpc down" (by decide)

/-- C6 is refuted by a step that begins after the window and whose
scan would return a matching event: the code checks the timeout at the
top of the step, before the event query, so it reports the timeout
failure on a step in which the scan holds a qualifying match and it
never invokes the Distributor — contradicting the claim that a step
whose query returns a matching event invokes the Distributor and that
the timeout failure is reported only on no-match scans. -/
theorem c6_counterexample :
    findMatch 5 [mint5] = some mint5
    ∧ PollStep.late 0 ⟨150001, Except.ok [mint5]⟩ = true
    ∧ runPoll envOk 5 60 0 [⟨150001, Except.ok [mint5]⟩] =
        [ListenerEvent.complete false (some timeoutError)]
    ∧ distributeCount (runPoll envOk 5 60 0 [⟨150001, Except.ok [mint5]⟩]) = 0 := by
  refine ⟨by decide, by decide, ?_, ?_⟩ <;> decide

/-- C6 (amended): the timeout is evaluated at the start of every
polling step, before the event query.  A step that begins after the
window reports the timeout failure whatever its scan would return; a
step within the window whose query returns a matching event invokes
the Distributor and reports its result through the callback; a step
within the window with no match — or a failed scan — schedules the
next step and reports nothing. -/
theorem c6_amended_timeout_checked_first :
    (∀ (env : ChainEnv) (e : Int) (sp : ℚ) (st : Nat) (s : PollStep)
        (rest : List PollStep), s.late st = true →
        runPoll env e sp st (s :: rest) =
          [ListenerEvent.complete false (some timeoutError)])
    ∧ (∀ (env : ChainEnv) (e : Int) (sp : ℚ) (st : Nat) (s : PollStep)
        (rest : List PollStep) (logs : List MintLog) (m : MintLog),
        s.late st = false → s.scan = Except.ok logs →
        findMatch e logs = some m →
        runPoll env e sp st (s :: rest) = matchTrace env e sp m)
    ∧ (∀ (env : ChainEnv) (e : Int) (sp : ℚ) (st : Nat) (s : PollStep)
        (rest : List PollStep), s.late st = false → s.quiet e = true →
        runPoll env e sp st (s :: rest) = runPoll env e sp st rest) :=
  ⟨fun env e sp st s rest h => runPoll_cons_late env e sp st s rest h,
   fun env e sp st s rest logs m h1 h2 h3 =>
     runPoll_cons_match env e sp st s rest logs m h1 h2 h3,
   fun env e sp st s rest h1 h2 => runPoll_cons_quiet env e sp st s rest h1 h2⟩

/-- Witness for the amended C6: all three step behaviours at concrete
inputs. -/
theorem c6_amended_timeout_checked_first_witness :
    runPoll envOk 5 60 0 [⟨150001, Except.ok [mint5]⟩] =
      [ListenerEvent.complete false (some timeoutError)]
    ∧ runPoll envOk 5 60 0 [⟨1000, Except.ok [mint4, mint5]⟩] =
        matchTrace envOk 5 60 mint5
    ∧ runPoll envOk 5 60 0 [⟨1000, Except.error "rpc down"⟩, ⟨2000, Except.ok []⟩] =
        runPoll envOk 5 60 0 [⟨2000, Except.ok []⟩] :=
  ⟨c6_amended_timeout_checked_first.1 envOk 5 60 0 ⟨150001, Except.ok [mint5]⟩ []
      (by decide),
   c6_amended_timeout_checked_first.2.1 envOk 5 60 0 ⟨1000, Except.ok [mint4, mint5]⟩ []
      [mint4, mint5] mint5 (by decide) rfl (by decide),
   c6_amended_timeout_checked_first.2.2 envOk 5 60 0 ⟨1000, Except.error "rpc down"⟩
      [⟨2000, Except.ok []⟩] (by decide) (by decide)⟩

/-- C9 is refuted on the reported per-party amounts of the immediate
response: for the request amount 0.00001 (10 smallest units) and
splitPercentage 25, the Distributor integer share for party A is 2
smallest units, while the response reports
(parseFloat(amount) * 25 / 100).toFixed(2) = 0.00 — the reported
amount differs from the integer split share even under exact
arithmetic, because the response computes in display units with
floating-point division and two-decimal rounding. -/
theorem c9_counterexample :
    parseUnits6 (1 / 100000) = Except.ok 10
    ∧ scopeAmountOf 10 25 = 2
    ∧ scopeDisplayAmount (1 / 100000) 25 = 0
    ∧ scopeDisplayAmount (1 / 100000) 25 * 1000000 ≠ ((scopeAmountOf 10 25 : ℤ) : ℚ) := by
  have h2 : scopeAmountOf 10 25 = 2 := by decide
  have h3 : scopeDisplayAmount (1 / 100000) 25 = 0 := by
    norm_num [scopeDisplayAmount, toFixed2, round_eq]
  refine ⟨?_, h2, h3, ?_⟩
  · norm_num [parseUnits6]
  · rw [h3, h2]; norm_num

/-- C9 (amended): the Distributor itself performs all amount
arithmetic on integers in smallest units — the party A share is the
floor of amount * splitPercentage / 100 and the party B share is the
exact remainder, summing to the amount — while the per-party amounts
of the immediate response are display-unit values rounded to two
decimal places: they lie within 1/200 of the exact proportional value
but need not equal the integer split shares. -/
theorem c9_amended_integer_core_display_rounded :
    (∀ amount sp : Int, 0 ≤ amount → 0 ≤ sp →
        scopeAmountOf amount sp + (amount - scopeAmountOf amount sp) = amount
        ∧ 100 * scopeAmountOf amount sp ≤ amount * sp
        ∧ amount * sp < 100 * (scopeAmountOf amount sp + 1))
    ∧ (∀ q sp : ℚ, |scopeDisplayAmount q sp - q * sp / 100| ≤ 1 / 200
        ∧ |coderDisplayAmount q sp - q * (100 - sp) / 100| ≤ 1 / 200) := by
  have key : ∀ z : ℚ, |toFixed2 z - z| ≤ 1 / 200 := by
    intro z
    have habs : |z * 100 - (round (z * 100) : ℚ)| ≤ 1 / 2 := abs_sub_round (z * 100)
    have hrw : toFixed2 z - z = ((round (z * 100) : ℚ) - z * 100) / 100 := by
      unfold toFixed2; ring
    rw [hrw, abs_div, abs_of_pos (by norm_num : (0 : ℚ) < 100), abs_sub_comm]
    linarith
  constructor
  · intro a s ha hs
    have hdiv : scopeAmountOf a s = a * s / 100 :=
      Int.tdiv_eq_ediv (mul_nonneg ha hs) (by norm_num)
    have h1 := Int.ediv_add_emod (a * s) 100
    have h2 := Int.emod_nonneg (a * s) (by norm_num : (100 : ℤ) ≠ 0)
    have h3 := Int.emod_lt_of_pos (a * s) (by norm_num : (0 : ℤ) < 100)
    refine ⟨by ring, ?_, ?_⟩ <;> rw [hdiv] <;> omega
  · intro q sp
    exact ⟨key (q * sp / 100), key (q * (100 - sp) / 100)⟩

/-- Witness for the amended C9 at amount 1000000 and splitPercentage
60 for the integer part and amount 10, splitPercentage 60 for the
display part. -/
theorem c9_amended_integer_core_display_rounded_witness :
    (scopeAmountOf 1000000 60 + (1000000 - scopeAmountOf 1000000 60) = 1000000
      ∧ 100 * scopeAmountOf 1000000 60 ≤ 1000000 * 60
      ∧ 1000000 * 60 < 100 * (scopeAmountOf 1000000 60 + 1))
    ∧ (|scopeDisplayAmount 10 60 - 10 * 60 / 100| ≤ 1 / 200
      ∧ |coderDisplayAmount 10 60 - 10 * (100 - 60) / 100| ≤ 1 / 200) :=
  ⟨c9_amended_integer_core_display_rounded.1 1000000 60 (by norm_num) (by norm_num),
   c9_amended_integer_core_display_rounded.2 10 60⟩

end PaymentAgent
